import Mathlib

/-!
Shallow embedding of the `skyline::gpu::Buffer` / `BufferView` coherency core
(Skyline emulator, `buffer.h`).

The provided source is the class header: field initializers, constants and a
few inline member functions (`GetBackingSpan`, `BufferViewStorage::operator==`,
`BufferView::operator bool`, `MegaBufferingDisableThreshold`) are code
authority; the bodies of the out-of-line member functions (`SynchronizeHost`,
`SynchronizeGuest`, `MarkGpuDirty`, `Read`, `Write`, `GetView`,
`AcquireCurrentSequence`, `AdvanceSequence`, `MarkHostImmutable`,
`CheckHostImmutable`, `AcquireMegaBuffer`) are not in the provided sources and
are modelled from the specification, as marked on each definition.

Bytes are modelled as `Nat`, byte ranges as `List Nat`, fence cycles as `Nat`
identifiers together with an external signal environment `Nat → Bool` (which
cycles have signalled at the moment of the call).  Callback invocations are
modelled as returned flags.  Locking and the trap subsystem are outside the
model: every operation is specified to run under the buffer's exclusive lock,
so the sequential semantics below is the per-operation semantics.
-/

/-- The dirty-state machine of a `Buffer` (source lines 32-36). -/
inductive DirtyState
  | Clean
  | CpuDirty
  | GpuDirty
deriving DecidableEq, Repr

/-- `Buffer::BufferViewStorage` (source lines 51-65): the immutable view
identity `(offset, size, format)` plus the two mutable megabuffering cache
fields `lastAcquiredSequence` and `megabufferOffset`.  `vk::Format` is modelled
as a `Nat` code. -/
structure BufferViewStorage where
  offset : Nat
  size : Nat
  format : Nat
  lastAcquiredSequence : Nat
  megabufferOffset : Nat
deriving DecidableEq, Repr

/-- `BufferViewStorage::operator==` (source lines 62-64): equality compares
only `offset`, `size` and `format`; the mutable cache fields are deliberately
excluded. -/
def bufferViewStorageEq (a b : BufferViewStorage) : Bool :=
  b.offset == a.offset && b.size == a.size && b.format == a.format

/-- An entry of the `views` cache together with the delegate handed out for
it.  In the C++ the delegate is a separate heap object; it is modelled by a
numeric identity so that "the same delegate" is decidable. -/
structure ViewSlot where
  storage : BufferViewStorage
  delegateId : Nat
deriving DecidableEq, Repr

/-- `Buffer::InitialSequenceNumber` (source line 67). -/
def InitialSequenceNumber : Nat := 1

/-- `BufferView::MegaBufferingDisableThreshold` (source line 299): 128 KiB. -/
def MegaBufferingDisableThreshold : Nat := 1024 * 128

/-- The state of a `Buffer` (source lines 22-291).  `guest` is the optional
guest mapping (its bytes), `backing` the host-side storage bytes, `mirror` the
contiguous CPU mirror of the guest mapping.  `hostImmutableCycle` holds the
identifier of the fence cycle for which the buffer was last marked host
immutable.  `nextDelegateId` is the allocator for delegate identities. -/
structure Buffer where
  guest : Option (List Nat)
  backing : List Nat
  mirror : List Nat
  dirtyState : DirtyState
  sequenceNumber : Nat
  everHadInlineUpdate : Bool
  hostImmutableCycle : Option Nat
  views : List ViewSlot
  nextDelegateId : Nat
deriving Repr

/-- Modelled from the spec: the guest-backed constructor
`Buffer(GPU &, GuestBuffer)` is declared at source line 139 but its body is
not in the provided sources.  Per spec §3 (Lifecycle) it builds the mirror
from the guest mapping, registers a trap (outside the model) and starts in
state `CpuDirty`; the `CpuDirty` initial state and the initial sequence number
`InitialSequenceNumber = 1` are field initializers in the source (lines 36 and
87).  The host backing's initial contents are unspecified; they are
zero-filled here and no theorem depends on them. -/
def mkGuestBuffer (g : List Nat) : Buffer :=
  { guest := some g
    backing := List.replicate g.length 0
    mirror := g
    dirtyState := DirtyState.CpuDirty
    sequenceNumber := InitialSequenceNumber
    everHadInlineUpdate := false
    hostImmutableCycle := none
    views := []
    nextDelegateId := 0 }

/-- Modelled from the spec: the body of `Buffer::SynchronizeHost` (declared at
source line 205) is not in the provided sources.  Per spec §4.1: if `CpuDirty`,
copy mirror→backing and transition to `Clean`; no-op otherwise.  The `rwTrap`
parameter only changes how the external guest trap is re-armed and is outside
the model. -/
def SynchronizeHost (b : Buffer) : Buffer :=
  if b.dirtyState = DirtyState.CpuDirty then
    { b with backing := b.mirror, dirtyState := DirtyState.Clean }
  else b

/-- Modelled from the spec: the body of `Buffer::MarkGpuDirty` (declared at
source line 185) is not in the provided sources.  Per spec §4.1 it transitions
the buffer to `GpuDirty`. -/
def MarkGpuDirty (b : Buffer) : Buffer :=
  { b with dirtyState := DirtyState.GpuDirty }

/-- Modelled from the spec: the body of `Buffer::SynchronizeGuest` (declared
at source line 221) is not in the provided sources.  Per spec §4.1: if
`GpuDirty`, wait for the held cycle (or, when `nonBlocking`, proceed only when
it is already signalled), copy backing→mirror and transition to `Clean`;
otherwise it is a no-op.  `cycleSignalled` is whether the held cycle has
signalled at the time of the call; `skipTrap` only affects the external trap
subsystem and is outside the model. -/
def SynchronizeGuest (b : Buffer) (nonBlocking : Bool) (cycleSignalled : Bool) : Buffer :=
  if b.dirtyState = DirtyState.GpuDirty then
    if nonBlocking && !cycleSignalled then b
    else { b with mirror := b.backing, dirtyState := DirtyState.Clean }
  else b

/-- Modelled from the spec: the body of `Buffer::CheckHostImmutable` (declared
at source line 45) is not in the provided sources.  Per spec §4.1 it is true
while the held immutability cycle exists and has not yet signalled, and
becomes false automatically once it signals, with no explicit clear.
`signalled` is the external signal environment. -/
def CheckHostImmutable (b : Buffer) (signalled : Nat → Bool) : Bool :=
  match b.hostImmutableCycle with
  | none => false
  | some c => !signalled c

/-- Modelled from the spec: the body of `Buffer::MarkHostImmutable` (declared
at source line 288) is not in the provided sources.  Per spec §4.1 it pins the
buffer immutable-to-direct-writes until the supplied cycle signals. -/
def MarkHostImmutable (b : Buffer) (cycle : Nat) : Buffer :=
  { b with hostImmutableCycle := some cycle }

/-- Splice `data` into `m` starting at byte offset `off` (the model of
`memcpy(m + off, data, data.size())`). -/
def writeSpan (m data : List Nat) (off : Nat) : List Nat :=
  m.take off ++ (data ++ m.drop (off + data.length))

/-- Read `len` bytes of `m` starting at byte offset `off` (the model of
`memcpy(out, m + off, len)`). -/
def readSpan (m : List Nat) (off len : Nat) : List Nat :=
  (m.drop off).take len

/-- Modelled from the spec: the body of `Buffer::Write` (declared at source
line 251) is not in the provided sources.  Per spec §4.1: if the buffer is
currently host immutable the update is performed through `gpuCopyCallback`
without touching mirror or backing directly (per spec §3 the sticky
`everHadInlineUpdate` flag records such inline GPU-side writes); otherwise
`data` is copied into the mirror at `offset` and the buffer is marked
`CpuDirty`.  The returned `Bool` is whether `gpuCopyCallback` was invoked. -/
def Write (b : Buffer) (signalled : Nat → Bool) (data : List Nat) (offset : Nat) :
    Buffer × Bool :=
  if CheckHostImmutable b signalled then
    ({ b with everHadInlineUpdate := true }, true)
  else
    ({ b with mirror := writeSpan b.mirror data offset
              dirtyState := DirtyState.CpuDirty }, false)

/-- Modelled from the spec: the body of `Buffer::Read` (declared at source
line 243) is not in the provided sources.  Per spec §4.1 it first ensures
guest-visible data is current (an implicit blocking guest sync, flushing host
work if needed — a no-op unless `GpuDirty`), then copies `len` bytes starting
at `offset` out of the mirror. -/
def Read (b : Buffer) (len offset : Nat) : List Nat × Buffer :=
  let b' := SynchronizeGuest b false true
  (readSpan b'.mirror offset len, b')

/-- Modelled from the spec: the body of `Buffer::AdvanceSequence` (declared at
source line 273) is not in the provided sources.  Per spec §4.1 it increments
the monotonically increasing `sequenceNumber`. -/
def AdvanceSequence (b : Buffer) : Buffer :=
  { b with sequenceNumber := b.sequenceNumber + 1 }

/-- Modelled from the spec: the body of `Buffer::AcquireCurrentSequence`
(declared at source line 266) is not in the provided sources.  Per spec §4.1
it returns `(0, emptySpan)` if the buffer is `GpuDirty`; otherwise it performs
the implicit CPU→GPU sync and returns the current sequence number together
with the guest mirror span. -/
def AcquireCurrentSequence (b : Buffer) : (Nat × List Nat) × Buffer :=
  if b.dirtyState = DirtyState.GpuDirty then ((0, []), b)
  else
    let b' := SynchronizeHost b
    ((b'.sequenceNumber, b'.mirror), b')

/-- Modelled from the spec: the body of `Buffer::GetView` (declared at source
line 257) is not in the provided sources.  Per spec §3 (Lifecycle) and §4.1 it
looks up the view descriptor for the identity `(offset, size, format)` in the
`views` cache — with the identity comparison of
`BufferViewStorage::operator==` — and returns the existing descriptor and
delegate when one exists, otherwise it allocates both.  Returns the delegate
identity and the updated buffer. -/
def GetView (b : Buffer) (offset size format : Nat) : Nat × Buffer :=
  match b.views.find? (fun s =>
      bufferViewStorageEq s.storage ⟨offset, size, format, 0, 0⟩) with
  | some s => (s.delegateId, b)
  | none =>
      (b.nextDelegateId,
       { b with
          views := b.views ++ [⟨⟨offset, size, format, 0, 0⟩, b.nextDelegateId⟩]
          nextDelegateId := b.nextDelegateId + 1 })

/-- `Buffer::GetBackingSpan` (source lines 133-137, inline in the header):
throws when a guest mapping is present, otherwise returns a span of the full
backing.  The buffer state is returned unchanged to make the absence of side
effects explicit. -/
def backingSpanErrorMessage : String :=
  "Attempted to get a span of a guest-backed buffer"

def GetBackingSpan (b : Buffer) : Except String (List Nat) × Buffer :=
  if b.guest.isSome then (Except.error backingSpanErrorMessage, b)
  else (Except.ok b.backing, b)

/-- A `BufferView` handle (source lines 298-384): a wrapper around a shared
`BufferDelegate`, modelled by its optional delegate identity. -/
structure BufferView where
  bufferDelegate : Option Nat
deriving DecidableEq, Repr

/-- `BufferView::BufferView(nullptr_t = nullptr)` (source line 305): the
default / nullptr constructor yields a handle with no delegate. -/
def BufferView.ofNullptr : BufferView := ⟨none⟩

/-- `BufferView::operator bool` (source lines 331-333):
`bufferDelegate != nullptr`. -/
def BufferView.toBool (v : BufferView) : Bool :=
  v.bufferDelegate.isSome

/-- A `BufferView` as handed out by `Buffer::GetView`: it wraps the delegate
produced by `GetView`. -/
def GetViewHandle (b : Buffer) (offset size format : Nat) : BufferView × Buffer :=
  let r := GetView b offset size format
  (⟨some r.1⟩, r.2)

/-- The megabuffer collaborator (spec §2, §6): an append-only per-cycle
scratch buffer whose `push` returns the offset of the pushed bytes.  `head` is
the current allocation offset; valid offsets are non-zero since `0` is the
"do not megabuffer" sentinel. -/
structure MegaBuffer where
  head : Nat
deriving DecidableEq, Repr

def MegaBuffer.push (mb : MegaBuffer) (len : Nat) : Nat × MegaBuffer :=
  (mb.head, ⟨mb.head + len⟩)

/-- Modelled from the spec: the body of `BufferView::AcquireMegaBuffer`
(declared at source line 375) is not in the provided sources.  Per spec §4.2:
megabuffering is eligible only when the view's size is at most
`MegaBufferingDisableThreshold` (the source comparison at line 299 is
`size > threshold` ⇒ too large) and the owning buffer has
`everHadInlineUpdate` set; ineligible views get the sentinel `0`.  When
`lastAcquiredSequence` already equals the buffer's current sequence the cached
`megabufferOffset` is returned without copying; on a cache miss the view's
contents are pushed into the megabuffer and `(currentSequence, newOffset)` is
recorded on the descriptor.  Returns the offset, the updated descriptor and
the updated megabuffer. -/
def AcquireMegaBuffer (b : Buffer) (vs : BufferViewStorage) (mb : MegaBuffer) :
    Nat × BufferViewStorage × MegaBuffer :=
  if !b.everHadInlineUpdate then (0, vs, mb)
  else if MegaBufferingDisableThreshold < vs.size then (0, vs, mb)
  else if vs.lastAcquiredSequence == b.sequenceNumber then
    (vs.megabufferOffset, vs, mb)
  else
    let r := mb.push vs.size
    (r.1,
     { vs with lastAcquiredSequence := b.sequenceNumber, megabufferOffset := r.1 },
     r.2)

/-- The operations of the `Buffer` interface, for stating whole-trace
invariants. -/
inductive BufOp
  | advanceSequence
  | acquireCurrentSequence
  | read (len offset : Nat)
  | write (signalled : Nat → Bool) (data : List Nat) (offset : Nat)
  | syncHost
  | syncGuest (nonBlocking cycleSignalled : Bool)
  | markGpuDirty
  | markHostImmutable (cycle : Nat)
  | getView (offset size format : Nat)

/-- One step of the `Buffer` state under an operation. -/
def step (b : Buffer) (op : BufOp) : Buffer :=
  match op with
  | BufOp.advanceSequence => AdvanceSequence b
  | BufOp.acquireCurrentSequence => (AcquireCurrentSequence b).2
  | BufOp.read len off => (Read b len off).2
  | BufOp.write s d o => (Write b s d o).1
  | BufOp.syncHost => SynchronizeHost b
  | BufOp.syncGuest nb cs => SynchronizeGuest b nb cs
  | BufOp.markGpuDirty => MarkGpuDirty b
  | BufOp.markHostImmutable c => MarkHostImmutable b c
  | BufOp.getView o s f => (GetView b o s f).2

/-! ## Helper lemmas -/

theorem readSpan_writeSpan (m data : List Nat) (off : Nat)
    (h : off + data.length ≤ m.length) :
    readSpan (writeSpan m data off) off data.length = data := by
  unfold readSpan writeSpan
  have ht : (m.take off).length = off := by
    rw [List.length_take]
    omega
  generalize hq : m.take off = t at ht
  rw [← ht, List.drop_left, List.take_left]

theorem SynchronizeHost_mirror (b : Buffer) :
    (SynchronizeHost b).mirror = b.mirror := by
  unfold SynchronizeHost
  split <;> rfl

theorem SynchronizeHost_sequenceNumber (b : Buffer) :
    (SynchronizeHost b).sequenceNumber = b.sequenceNumber := by
  unfold SynchronizeHost
  split <;> rfl

theorem SynchronizeGuest_sequenceNumber (b : Buffer) (nb cs : Bool) :
    (SynchronizeGuest b nb cs).sequenceNumber = b.sequenceNumber := by
  unfold SynchronizeGuest
  split
  · split <;> rfl
  · rfl

theorem AcquireCurrentSequence_sequenceNumber (b : Buffer) :
    (AcquireCurrentSequence b).2.sequenceNumber = b.sequenceNumber := by
  unfold AcquireCurrentSequence
  split
  · rfl
  · exact SynchronizeHost_sequenceNumber b

theorem Read_sequenceNumber (b : Buffer) (len off : Nat) :
    (Read b len off).2.sequenceNumber = b.sequenceNumber :=
  SynchronizeGuest_sequenceNumber b false true

theorem Write_sequenceNumber (b : Buffer) (s : Nat → Bool) (d : List Nat) (o : Nat) :
    (Write b s d o).1.sequenceNumber = b.sequenceNumber := by
  unfold Write
  split <;> rfl

theorem GetView_sequenceNumber (b : Buffer) (o s f : Nat) :
    (GetView b o s f).2.sequenceNumber = b.sequenceNumber := by
  unfold GetView
  split <;> rfl

theorem step_sequenceNumber_mono (b : Buffer) (op : BufOp) :
    b.sequenceNumber ≤ (step b op).sequenceNumber := by
  cases op with
  | advanceSequence => exact Nat.le_succ _
  | acquireCurrentSequence => exact Nat.le_of_eq (AcquireCurrentSequence_sequenceNumber b).symm
  | read len off => exact Nat.le_of_eq (Read_sequenceNumber b len off).symm
  | write s d o => exact Nat.le_of_eq (Write_sequenceNumber b s d o).symm
  | syncHost => exact Nat.le_of_eq (SynchronizeHost_sequenceNumber b).symm
  | syncGuest nb cs => exact Nat.le_of_eq (SynchronizeGuest_sequenceNumber b nb cs).symm
  | markGpuDirty => exact Nat.le_refl _
  | markHostImmutable c => exact Nat.le_refl _
  | getView o s f => exact Nat.le_of_eq (GetView_sequenceNumber b o s f).symm

theorem foldl_step_sequenceNumber_mono (ops : List BufOp) (b : Buffer) :
    b.sequenceNumber ≤ (List.foldl step b ops).sequenceNumber := by
  induction ops generalizing b with
  | nil => exact Nat.le_refl _
  | cons op rest ih =>
      exact Nat.le_trans (step_sequenceNumber_mono b op) (ih (step b op))

/-! ## Claim theorems -/

/-- C1: for a guest-backed `Buffer`, the dirty-state machine follows spec
§4.1/§8: construction leaves the state `CpuDirty`; `SynchronizeHost` in state
`CpuDirty` transitions to `Clean` and makes the backing bytes equal the mirror
bytes, and is a no-op in any other state; `MarkGpuDirty` transitions to
`GpuDirty`; `SynchronizeGuest` in state `GpuDirty` with a signalled cycle
transitions to `Clean` and makes the mirror bytes equal the backing bytes. -/
theorem c1_dirty_state_machine (g : List Nat) (b : Buffer) :
    (mkGuestBuffer g).dirtyState = DirtyState.CpuDirty
    ∧ (b.dirtyState = DirtyState.CpuDirty →
        (SynchronizeHost b).dirtyState = DirtyState.Clean
        ∧ (SynchronizeHost b).backing = (SynchronizeHost b).mirror)
    ∧ (b.dirtyState ≠ DirtyState.CpuDirty → SynchronizeHost b = b)
    ∧ (MarkGpuDirty b).dirtyState = DirtyState.GpuDirty
    ∧ (b.dirtyState = DirtyState.GpuDirty →
        (SynchronizeGuest b false true).dirtyState = DirtyState.Clean
        ∧ (SynchronizeGuest b false true).mirror = (SynchronizeGuest b false true).backing) := by
  refine ⟨rfl, ?_, ?_, rfl, ?_⟩
  · intro h
    unfold SynchronizeHost
    rw [if_pos h]
    exact ⟨rfl, rfl⟩
  · intro h
    unfold SynchronizeHost
    rw [if_neg h]
  · intro h
    unfold SynchronizeGuest
    rw [if_pos h]
    exact ⟨rfl, rfl⟩

/-- Witness for C1 at a concrete guest-backed buffer. -/
theorem c1_dirty_state_machine_witness :
    (mkGuestBuffer [1, 2, 3, 4]).dirtyState = DirtyState.CpuDirty
    ∧ (SynchronizeHost (mkGuestBuffer [1, 2, 3, 4])).dirtyState = DirtyState.Clean
    ∧ (MarkGpuDirty (mkGuestBuffer [1, 2, 3, 4])).dirtyState = DirtyState.GpuDirty := by
  have h := c1_dirty_state_machine [1, 2, 3, 4] (mkGuestBuffer [1, 2, 3, 4])
  exact ⟨h.1, (h.2.1 rfl).1, h.2.2.2.1⟩

/-- C2: on a non-host-immutable buffer, `Write(data, offset)` followed by
`Read(offset, len(data))` with no intervening host-dirtying event returns
exactly `data`, for any in-range offset. -/
theorem c2_write_read_roundtrip (b : Buffer) (signalled : Nat → Bool)
    (data : List Nat) (offset : Nat)
    (himm : CheckHostImmutable b signalled = false)
    (hlen : offset + data.length ≤ b.mirror.length) :
    (Read (Write b signalled data offset).1 data.length offset).1 = data := by
  unfold Write
  rw [himm]
  simp only [Bool.false_eq_true, if_false]
  unfold Read SynchronizeGuest
  simp only [reduceCtorEq, if_false]
  exact readSpan_writeSpan b.mirror data offset hlen

/-- Witness for C2: writing `[7, 8]` at offset 1 of a 4-byte guest-backed
buffer and reading 2 bytes back at offset 1 returns `[7, 8]`. -/
theorem c2_write_read_roundtrip_witness :
    (Read (Write (mkGuestBuffer [0, 0, 0, 0]) (fun _ => false) [7, 8] 1).1 2 1).1 = [7, 8] :=
  c2_write_read_roundtrip (mkGuestBuffer [0, 0, 0, 0]) (fun _ => false) [7, 8] 1
    rfl (by decide)

/-- C3: `sequenceNumber` equals `InitialSequenceNumber = 1` immediately after
construction, and never decreases across any sequence of buffer operations. -/
theorem c3_sequence_number_monotone (g : List Nat) (b : Buffer) (ops : List BufOp) :
    (mkGuestBuffer g).sequenceNumber = 1
    ∧ b.sequenceNumber ≤ (List.foldl step b ops).sequenceNumber :=
  ⟨rfl, foldl_step_sequenceNumber_mono ops b⟩

/-- C4: `AcquireCurrentSequence` returns `(0, empty span)` if and only if the
dirty state is `GpuDirty` at entry; in any other state it returns the current
(non-zero) `sequenceNumber` together with the (non-empty) guest mirror span.
The hypotheses — a positive sequence number and a non-empty mirror — hold for
every buffer constructed from a non-empty guest mapping, since the sequence
number starts at 1 and never decreases and the mirror is the guest mapping. -/
theorem c4_acquire_current_sequence (b : Buffer)
    (hseq : 0 < b.sequenceNumber) (hmir : b.mirror ≠ []) :
    ((AcquireCurrentSequence b).1 = (0, []) ↔ b.dirtyState = DirtyState.GpuDirty)
    ∧ (b.dirtyState ≠ DirtyState.GpuDirty →
        (AcquireCurrentSequence b).1.1 = b.sequenceNumber
        ∧ (AcquireCurrentSequence b).1.1 ≠ 0
        ∧ (AcquireCurrentSequence b).1.2 = b.mirror
        ∧ (AcquireCurrentSequence b).1.2 ≠ []) := by
  unfold AcquireCurrentSequence
  by_cases h : b.dirtyState = DirtyState.GpuDirty
  · rw [if_pos h]
    exact ⟨⟨fun _ => h, fun _ => rfl⟩, fun hn => absurd h hn⟩
  · rw [if_neg h]
    simp only
    constructor
    · constructor
      · intro hp
        have h1 : (SynchronizeHost b).sequenceNumber = 0 := congrArg Prod.fst hp
        rw [SynchronizeHost_sequenceNumber] at h1
        omega
      · intro hd
        exact absurd hd h
    · intro _
      refine ⟨SynchronizeHost_sequenceNumber b, ?_, SynchronizeHost_mirror b, ?_⟩
      · rw [SynchronizeHost_sequenceNumber]
        omega
      · rw [SynchronizeHost_mirror]
        exact hmir

/-- Witness for C4 at a freshly constructed one-byte guest-backed buffer. -/
theorem c4_acquire_current_sequence_witness :
    (AcquireCurrentSequence (mkGuestBuffer [5])).1.1 = 1
    ∧ (AcquireCurrentSequence (mkGuestBuffer [5])).1.2 = [5] := by
  have h := c4_acquire_current_sequence (mkGuestBuffer [5]) (by decide)
    (by intro h; exact absurd (congrArg List.length h) (by decide))
  have h2 := h.2 (by intro hd; exact absurd hd (by decide))
  exact ⟨h2.1, h2.2.2.1⟩

/-- C6: `AcquireMegaBuffer` returns the sentinel `0` whenever the view's size
exceeds `MegaBufferingDisableThreshold` (128 KiB), and whenever the owning
buffer's `everHadInlineUpdate` flag is unset; a non-zero offset is only ever
returned when the size is at most 128 KiB and the flag is set. -/
theorem c6_megabuffer_eligibility (b : Buffer) (vs : BufferViewStorage) (mb : MegaBuffer) :
    (MegaBufferingDisableThreshold < vs.size → (AcquireMegaBuffer b vs mb).1 = 0)
    ∧ (b.everHadInlineUpdate = false → (AcquireMegaBuffer b vs mb).1 = 0)
    ∧ ((AcquireMegaBuffer b vs mb).1 ≠ 0 →
        vs.size ≤ MegaBufferingDisableThreshold ∧ b.everHadInlineUpdate = true) := by
  unfold AcquireMegaBuffer
  refine ⟨?_, ?_, ?_⟩
  · intro hsize
    by_cases hflag : b.everHadInlineUpdate
    · rw [hflag]
      simp only [Bool.not_true, Bool.false_eq_true, if_false, if_pos hsize]
    · rw [Bool.not_eq_true] at hflag
      rw [hflag]
      simp only [Bool.not_false, if_true]
  · intro hflag
    rw [hflag]
    simp only [Bool.not_false, if_true]
  · intro hne
    by_cases hflag : b.everHadInlineUpdate
    · refine ⟨?_, hflag⟩
      by_cases hsize : MegaBufferingDisableThreshold < vs.size
      · rw [hflag] at hne
        simp only [Bool.not_true, Bool.false_eq_true, if_false, if_pos hsize] at hne
        exact absurd rfl hne
      · omega
    · rw [Bool.not_eq_true] at hflag
      rw [hflag] at hne
      simp only [Bool.not_false, if_true] at hne
      exact absurd rfl hne

/-- Witness for C6: an oversized view and a never-inline-updated buffer both
get the sentinel `0`. -/
theorem c6_megabuffer_eligibility_witness :
    (AcquireMegaBuffer (mkGuestBuffer [0]) ⟨0, 131073, 0, 0, 0⟩ ⟨1⟩).1 = 0
    ∧ (AcquireMegaBuffer (mkGuestBuffer [0]) ⟨0, 4, 0, 0, 0⟩ ⟨1⟩).1 = 0 :=
  ⟨(c6_megabuffer_eligibility (mkGuestBuffer [0]) ⟨0, 131073, 0, 0, 0⟩ ⟨1⟩).1 (by decide),
   (c6_megabuffer_eligibility (mkGuestBuffer [0]) ⟨0, 4, 0, 0, 0⟩ ⟨1⟩).2.1 rfl⟩

/-- C7: on a view eligible for megabuffering (owning buffer has
`everHadInlineUpdate` set, size at most 128 KiB, a fresh descriptor cache and a
megabuffer handing out non-zero offsets), two consecutive `AcquireMegaBuffer`
calls with no intervening `AdvanceSequence`/`Write` on the owning buffer
return the identical non-zero offset, and the second call performs no second
copy into the megabuffer: the megabuffer state is unchanged, the result being
served from the descriptor's cached
`lastAcquiredSequence`/`megabufferOffset` pair. -/
theorem c7_megabuffer_cache (b : Buffer) (vs : BufferViewStorage) (mb : MegaBuffer)
    (hflag : b.everHadInlineUpdate = true)
    (hsize : vs.size ≤ MegaBufferingDisableThreshold)
    (hmb : 0 < mb.head)
    (hfresh : vs.lastAcquiredSequence ≠ b.sequenceNumber) :
    (AcquireMegaBuffer b (AcquireMegaBuffer b vs mb).2.1 (AcquireMegaBuffer b vs mb).2.2).1
      = (AcquireMegaBuffer b vs mb).1
    ∧ (AcquireMegaBuffer b vs mb).1 ≠ 0
    ∧ (AcquireMegaBuffer b (AcquireMegaBuffer b vs mb).2.1 (AcquireMegaBuffer b vs mb).2.2).2.2
      = (AcquireMegaBuffer b vs mb).2.2 := by
  have hr1 : AcquireMegaBuffer b vs mb
      = (mb.head,
         { vs with lastAcquiredSequence := b.sequenceNumber, megabufferOffset := mb.head },
         ⟨mb.head + vs.size⟩) := by
    unfold AcquireMegaBuffer
    rw [hflag]
    simp only [Bool.not_true, Bool.false_eq_true, if_false]
    rw [if_neg (by omega), if_neg (by simp only [beq_iff_eq]; exact hfresh)]
    rfl
  rw [hr1]
  have hr2 : AcquireMegaBuffer b
      { vs with lastAcquiredSequence := b.sequenceNumber, megabufferOffset := mb.head }
      ⟨mb.head + vs.size⟩
      = (mb.head,
         { vs with lastAcquiredSequence := b.sequenceNumber, megabufferOffset := mb.head },
         ⟨mb.head + vs.size⟩) := by
    unfold AcquireMegaBuffer
    rw [hflag]
    simp only [Bool.not_true, Bool.false_eq_true, if_false]
    rw [if_neg (show ¬MegaBufferingDisableThreshold < vs.size by omega),
        if_pos (beq_self_eq_true b.sequenceNumber)]
  rw [hr2]
  exact ⟨rfl, by omega, rfl⟩

/-- Witness for C7 at a concrete eligible view. -/
theorem c7_megabuffer_cache_witness :
    (AcquireMegaBuffer { mkGuestBuffer [0] with everHadInlineUpdate := true }
        (AcquireMegaBuffer { mkGuestBuffer [0] with everHadInlineUpdate := true }
          ⟨0, 4, 0, 0, 0⟩ ⟨16⟩).2.1
        (AcquireMegaBuffer { mkGuestBuffer [0] with everHadInlineUpdate := true }
          ⟨0, 4, 0, 0, 0⟩ ⟨16⟩).2.2).1
      = (AcquireMegaBuffer { mkGuestBuffer [0] with everHadInlineUpdate := true }
          ⟨0, 4, 0, 0, 0⟩ ⟨16⟩).1
    ∧ (AcquireMegaBuffer { mkGuestBuffer [0] with everHadInlineUpdate := true }
        ⟨0, 4, 0, 0, 0⟩ ⟨16⟩).1 ≠ 0 := by
  have h := c7_megabuffer_cache { mkGuestBuffer [0] with everHadInlineUpdate := true }
    ⟨0, 4, 0, 0, 0⟩ ⟨16⟩ rfl (by decide) (by decide) (by decide)
  exact ⟨h.1, h.2.1⟩

/-- C8: after `MarkHostImmutable(cycle)`, a `Write` issued before `cycle`
signals invokes the supplied `gpuCopyCallback` and leaves both the backing
storage and the mirror untouched by any direct copy; once `cycle` has
signalled, `CheckHostImmutable` becomes false with no explicit clear, and
`Write` resumes direct mutation of the mirror, marking the buffer
`CpuDirty`. -/
theorem c8_host_immutable_write (b : Buffer) (c : Nat) (signalled : Nat → Bool)
    (data : List Nat) (offset : Nat) :
    (signalled c = false →
      CheckHostImmutable (MarkHostImmutable b c) signalled = true
      ∧ (Write (MarkHostImmutable b c) signalled data offset).2 = true
      ∧ (Write (MarkHostImmutable b c) signalled data offset).1.backing = b.backing
      ∧ (Write (MarkHostImmutable b c) signalled data offset).1.mirror = b.mirror)
    ∧ (signalled c = true →
      CheckHostImmutable (MarkHostImmutable b c) signalled = false
      ∧ (Write (MarkHostImmutable b c) signalled data offset).2 = false
      ∧ (Write (MarkHostImmutable b c) signalled data offset).1.mirror
          = writeSpan b.mirror data offset
      ∧ (Write (MarkHostImmutable b c) signalled data offset).1.dirtyState
          = DirtyState.CpuDirty) := by
  constructor
  · intro hns
    have hchk : CheckHostImmutable (MarkHostImmutable b c) signalled = true := by
      unfold CheckHostImmutable MarkHostImmutable
      simp only [hns, Bool.not_false]
    refine ⟨hchk, ?_, ?_, ?_⟩ <;>
      · unfold Write
        rw [hchk]
        rfl
  · intro hs
    have hchk : CheckHostImmutable (MarkHostImmutable b c) signalled = false := by
      unfold CheckHostImmutable MarkHostImmutable
      simp only [hs, Bool.not_true]
    refine ⟨hchk, ?_, ?_, ?_⟩ <;>
      · unfold Write
        rw [hchk]
        rfl

/-- Witness for C8 at a concrete buffer, an unsignalled environment for the
immutable phase and a signalled one for the resumed phase. -/
theorem c8_host_immutable_write_witness :
    (Write (MarkHostImmutable (mkGuestBuffer [0, 0]) 3) (fun _ => false) [9] 0).2 = true
    ∧ (Write (MarkHostImmutable (mkGuestBuffer [0, 0]) 3) (fun _ => false) [9] 0).1.mirror
        = [0, 0]
    ∧ (Write (MarkHostImmutable (mkGuestBuffer [0, 0]) 3) (fun _ => true) [9] 0).2 = false
    ∧ (Write (MarkHostImmutable (mkGuestBuffer [0, 0]) 3) (fun _ => true) [9] 0).1.dirtyState
        = DirtyState.CpuDirty := by
  have h1 := (c8_host_immutable_write (mkGuestBuffer [0, 0]) 3 (fun _ => false) [9] 0).1 rfl
  have h2 := (c8_host_immutable_write (mkGuestBuffer [0, 0]) 3 (fun _ => true) [9] 0).2 rfl
  exact ⟨h1.2.1, h1.2.2.2, h2.2.1, h2.2.2.2⟩

/-- C9: `GetBackingSpan` raises a hard failure exactly when the buffer has a
guest mapping; on a host-only buffer it returns the full backing span and
leaves the buffer state unchanged (it never modifies the state in either
case). -/
theorem c9_get_backing_span (b : Buffer) :
    ((GetBackingSpan b).1 = Except.error backingSpanErrorMessage ↔ b.guest.isSome = true)
    ∧ (b.guest = none → (GetBackingSpan b).1 = Except.ok b.backing)
    ∧ (GetBackingSpan b).2 = b := by
  unfold GetBackingSpan
  by_cases h : b.guest.isSome
  · rw [if_pos h]
    exact ⟨⟨fun _ => h, fun _ => rfl⟩, fun hn => by rw [hn] at h; exact absurd h (by decide), rfl⟩
  · rw [if_neg h]
    refine ⟨⟨fun he => absurd he (by simp only [reduceCtorEq]; exact fun hf => hf), fun hg => absurd hg h⟩, fun _ => rfl, rfl⟩

/-- Witness for C9: a guest-backed buffer fails, a host-only buffer returns
its backing. -/
theorem c9_get_backing_span_witness :
    (GetBackingSpan (mkGuestBuffer [1])).1 = Except.error backingSpanErrorMessage
    ∧ (GetBackingSpan { mkGuestBuffer [1] with guest := none, backing := [2, 3] }).1
        = Except.ok [2, 3] :=
  ⟨(c9_get_backing_span (mkGuestBuffer [1])).1.2 rfl,
   (c9_get_backing_span { mkGuestBuffer [1] with guest := none, backing := [2, 3] }).2.1 rfl⟩

/-- C10: a `BufferView` is default-constructible / constructible from
`nullptr` with no delegate; its boolean conversion is true exactly when its
`bufferDelegate` is non-null, so the null view tests falsy and any view
obtained from `GetView` tests truthy. -/
theorem c10_bufferview_bool (v : BufferView) (b : Buffer) (o s f : Nat) :
    BufferView.ofNullptr.bufferDelegate = none
    ∧ (BufferView.toBool v = true ↔ v.bufferDelegate ≠ none)
    ∧ BufferView.toBool BufferView.ofNullptr = false
    ∧ BufferView.toBool (GetViewHandle b o s f).1 = true := by
  refine ⟨rfl, ?_, rfl, rfl⟩
  unfold BufferView.toBool
  cases hv : v.bufferDelegate with
  | none => simp [hv, Option.isSome]
  | some d => simp [hv, Option.isSome]


/-! ## C5: view caching in `GetView` -/

/-- The probe descriptor `GetView` looks up: the identity `(offset, size,
format)` with zeroed cache fields. -/
def probeStorage (offset size format : Nat) : BufferViewStorage :=
  ⟨offset, size, format, 0, 0⟩

/-- The cache entry `GetView` inserts on a miss. -/
def newSlot (offset size format id : Nat) : ViewSlot :=
  ⟨probeStorage offset size format, id⟩

theorem bufferViewStorageEq_iff (a k : BufferViewStorage) :
    bufferViewStorageEq a k = true ↔
      (k.offset = a.offset ∧ k.size = a.size ∧ k.format = a.format) := by
  unfold bufferViewStorageEq
  simp [Bool.and_eq_true, beq_iff_eq, and_assoc]

theorem GetView_hit {b : Buffer} {o s f : Nat} {t : ViewSlot}
    (h : b.views.find? (fun u => bufferViewStorageEq u.storage (probeStorage o s f)) = some t) :
    GetView b o s f = (t.delegateId, b) := by
  unfold probeStorage at h
  unfold GetView
  rw [h]

theorem GetView_miss {b : Buffer} {o s f : Nat}
    (h : b.views.find? (fun u => bufferViewStorageEq u.storage (probeStorage o s f)) = none) :
    GetView b o s f =
      (b.nextDelegateId,
       { b with views := b.views ++ [newSlot o s f b.nextDelegateId]
                nextDelegateId := b.nextDelegateId + 1 }) := by
  unfold probeStorage at h
  unfold GetView newSlot probeStorage
  rw [h]

/-- Well-formedness of the view cache: every handed-out delegate identity is
below the allocator counter, and distinct cache entries carry distinct
delegate identities.  Both hold at construction (the cache is empty) and are
preserved by `GetView`. -/
def ViewsWf (b : Buffer) : Prop :=
  (∀ s ∈ b.views, s.delegateId < b.nextDelegateId)
  ∧ b.views.Pairwise (fun s t => s.delegateId ≠ t.delegateId)

theorem viewsWf_mkGuestBuffer (g : List Nat) : ViewsWf (mkGuestBuffer g) :=
  ⟨fun _ hs => absurd hs (List.not_mem_nil _), List.Pairwise.nil⟩

theorem find?_singleton_neg {p : ViewSlot → Bool} {a : ViewSlot} (h : p a = false) :
    List.find? p [a] = none := by
  simp [List.find?, h]

theorem find?_singleton_pos {p : ViewSlot → Bool} {a : ViewSlot} (h : p a = true) :
    List.find? p [a] = some a := by
  simp [List.find?, h]

/-- C5: two `GetView` calls with identical `(offset, size, format)` arguments
on the same live buffer return the same delegate and the same view-cache state
(hence the same view descriptor), while a `GetView` call with differing
arguments yields a distinct delegate.  The well-formedness hypothesis holds
for every buffer whose views were only ever created through `GetView`, in
particular at construction. -/
theorem c5_getview_caching (b : Buffer) (o1 s1 f1 o2 s2 f2 : Nat)
    (hwf : ViewsWf b)
    (hne : ¬(o1 = o2 ∧ s1 = s2 ∧ f1 = f2)) :
    (GetView (GetView b o1 s1 f1).2 o1 s1 f1).1 = (GetView b o1 s1 f1).1
    ∧ (GetView (GetView b o1 s1 f1).2 o1 s1 f1).2 = (GetView b o1 s1 f1).2
    ∧ (GetView (GetView b o1 s1 f1).2 o2 s2 f2).1 ≠ (GetView b o1 s1 f1).1 := by
  obtain ⟨hlt, hdist⟩ := hwf
  have hsym : Symmetric (fun s t : ViewSlot => s.delegateId ≠ t.delegateId) :=
    fun _ _ h => Ne.symm h
  have hp1self : bufferViewStorageEq (probeStorage o1 s1 f1) (probeStorage o1 s1 f1) = true := by
    rw [bufferViewStorageEq_iff]
    exact ⟨rfl, rfl, rfl⟩
  have hcross : ∀ t : ViewSlot,
      bufferViewStorageEq t.storage (probeStorage o1 s1 f1) = true →
      bufferViewStorageEq t.storage (probeStorage o2 s2 f2) = true → False := by
    intro t h1 h2
    rw [bufferViewStorageEq_iff] at h1 h2
    exact hne ⟨h1.1.trans h2.1.symm, h1.2.1.trans h2.2.1.symm, h1.2.2.trans h2.2.2.symm⟩
  cases hfind1 : b.views.find? (fun u => bufferViewStorageEq u.storage (probeStorage o1 s1 f1)) with
  | some t1 =>
      have ht1_mem : t1 ∈ b.views := List.mem_of_find?_eq_some hfind1
      have ht1_p' := List.find?_some hfind1
      have ht1_p : bufferViewStorageEq t1.storage (probeStorage o1 s1 f1) = true := ht1_p'
      have hb1 : GetView b o1 s1 f1 = (t1.delegateId, b) := GetView_hit hfind1
      rw [hb1]
      refine ⟨?_, ?_, ?_⟩
      · show (GetView b o1 s1 f1).1 = t1.delegateId
        rw [hb1]
      · show (GetView b o1 s1 f1).2 = b
        rw [hb1]
      · show (GetView b o2 s2 f2).1 ≠ t1.delegateId
        cases hfind2 : b.views.find? (fun u => bufferViewStorageEq u.storage (probeStorage o2 s2 f2)) with
        | some t2 =>
            have ht2_mem : t2 ∈ b.views := List.mem_of_find?_eq_some hfind2
            have ht2_p' := List.find?_some hfind2
            have ht2_p : bufferViewStorageEq t2.storage (probeStorage o2 s2 f2) = true := ht2_p'
            rw [GetView_hit hfind2]
            have ht12 : t2 ≠ t1 := by
              intro he
              exact hcross t1 ht1_p (he ▸ ht2_p)
            exact hdist.forall hsym ht2_mem ht1_mem ht12
        | none =>
            rw [GetView_miss hfind2]
            exact Nat.ne_of_gt (hlt t1 ht1_mem)
  | none =>
      have hb1 : GetView b o1 s1 f1
          = (b.nextDelegateId,
             { b with views := b.views ++ [newSlot o1 s1 f1 b.nextDelegateId]
                      nextDelegateId := b.nextDelegateId + 1 }) := GetView_miss hfind1
      rw [hb1]
      have hp1slot : (fun u : ViewSlot =>
          bufferViewStorageEq u.storage (probeStorage o1 s1 f1))
          (newSlot o1 s1 f1 b.nextDelegateId) = true := hp1self
      have hfind1' :
          (b.views ++ [newSlot o1 s1 f1 b.nextDelegateId]).find?
            (fun u => bufferViewStorageEq u.storage (probeStorage o1 s1 f1))
          = some (newSlot o1 s1 f1 b.nextDelegateId) := by
        rw [List.find?_append, hfind1, find?_singleton_pos hp1slot]
        rfl
      have hb2 : GetView
          { b with views := b.views ++ [newSlot o1 s1 f1 b.nextDelegateId]
                   nextDelegateId := b.nextDelegateId + 1 } o1 s1 f1
          = ((newSlot o1 s1 f1 b.nextDelegateId).delegateId,
             { b with views := b.views ++ [newSlot o1 s1 f1 b.nextDelegateId]
                      nextDelegateId := b.nextDelegateId + 1 }) := GetView_hit hfind1'
      refine ⟨?_, ?_, ?_⟩
      · rw [hb2]
        rfl
      · rw [hb2]
      · have hp2slot : (fun u : ViewSlot =>
            bufferViewStorageEq u.storage (probeStorage o2 s2 f2))
            (newSlot o1 s1 f1 b.nextDelegateId) = false := by
          by_contra hc
          rw [Bool.not_eq_false] at hc
          exact hcross (newSlot o1 s1 f1 b.nextDelegateId) hp1self hc
        cases hfind2 : b.views.find? (fun u => bufferViewStorageEq u.storage (probeStorage o2 s2 f2)) with
        | some t2 =>
            have ht2_mem : t2 ∈ b.views := List.mem_of_find?_eq_some hfind2
            have hfind2' :
                (b.views ++ [newSlot o1 s1 f1 b.nextDelegateId]).find?
                  (fun u => bufferViewStorageEq u.storage (probeStorage o2 s2 f2))
                = some t2 := by
              rw [List.find?_append, hfind2]
              rfl
            rw [GetView_hit hfind2']
            exact Nat.ne_of_lt (hlt t2 ht2_mem)
        | none =>
            have hfind2' :
                (b.views ++ [newSlot o1 s1 f1 b.nextDelegateId]).find?
                  (fun u => bufferViewStorageEq u.storage (probeStorage o2 s2 f2))
                = none := by
              rw [List.find?_append, hfind2, find?_singleton_neg hp2slot]
              rfl
            rw [GetView_miss hfind2']
            exact Nat.succ_ne_self b.nextDelegateId

/-- Witness for C5 on a freshly constructed buffer: the first and second views
for `(0, 4, 0)` share one delegate, while the view for `(4, 4, 0)` gets a
distinct delegate. -/
theorem c5_getview_caching_witness :
    (GetView (GetView (mkGuestBuffer [0, 0, 0, 0, 0, 0, 0, 0]) 0 4 0).2 0 4 0).1
      = (GetView (mkGuestBuffer [0, 0, 0, 0, 0, 0, 0, 0]) 0 4 0).1
    ∧ (GetView (GetView (mkGuestBuffer [0, 0, 0, 0, 0, 0, 0, 0]) 0 4 0).2 4 4 0).1
      ≠ (GetView (mkGuestBuffer [0, 0, 0, 0, 0, 0, 0, 0]) 0 4 0).1 := by
  have h := c5_getview_caching (mkGuestBuffer [0, 0, 0, 0, 0, 0, 0, 0]) 0 4 0 4 4 0
    (viewsWf_mkGuestBuffer [0, 0, 0, 0, 0, 0, 0, 0]) (by decide)
  exact ⟨h.1, h.2.2⟩

/-- Witness for C10: the null view tests falsy, a `GetView` result tests
truthy. -/
theorem c10_bufferview_bool_witness :
    BufferView.toBool BufferView.ofNullptr = false
    ∧ BufferView.toBool (GetViewHandle (mkGuestBuffer [0]) 0 1 0).1 = true := by
  have h := c10_bufferview_bool BufferView.ofNullptr (mkGuestBuffer [0]) 0 1 0
  exact ⟨h.2.2.1, h.2.2.2⟩
